import Mathlib

/-!
Verification of the PCP archive export/import subsystem of sysstat
(`src/pcp_def_metrics.c`, `src/pcp_stats.c`).

The C code is shallowly embedded: machine integers are modelled as `Nat`
(with explicit `% 2 ^ 64` where 64-bit wraparound matters), C structs as
Lean structures, buffers as index functions or lists, and the external
collaborators that are not part of these two files
(`get_per_cpu_interval`, `get_global_cpu_statistics`,
`get_global_soft_statistics`, `reallocate_buffers`, libpcp_import) as
explicit parameters or, where a claim depends on them, as definitions
modelled from the specification.
-/

/-! ## Identifier codec (`pcp_def_metrics.h`, lines 4430-4433)

`#define PMI_ID(domain, cluster, item)`
`        ((((domain)&0x1ff)<<22)|(((cluster)&0xfff)<<10)|((item)&0x3ff))`
`#define PMI_INDOM(domain, serial)`
`        ((((domain)&0x1ff)<<22)|(((serial)&0x3fffff)))`
-/

def PMI_ID (domain cluster item : Nat) : Nat :=
  (((domain &&& 0x1ff) <<< 22) ||| ((cluster &&& 0xfff) <<< 10)) ||| (item &&& 0x3ff)

def PMI_INDOM (domain serial : Nat) : Nat :=
  ((domain &&& 0x1ff) <<< 22) ||| (serial &&& 0x3fffff)

/-- Metric-identifier bit layout as written in the spec (section 6,
"Identifier bit layout"): `(domain & 0x1FF) << 22 | (cluster & 0xFFF) << 10 |
(item & 0x3FF)`. -/
def spec_metric_id_layout (domain cluster item : Nat) : Nat :=
  (((domain &&& 0x1FF) <<< 22) ||| ((cluster &&& 0xFFF) <<< 10)) ||| (item &&& 0x3FF)

/-- Instance-domain-identifier bit layout as written in the spec (section 6):
`(domain & 0x1FF) << 22 | (serial & 0x3FFFFF)`. -/
def spec_indom_id_layout (domain serial : Nat) : Nat :=
  ((domain &&& 0x1FF) <<< 22) ||| (serial &&& 0x3FFFFF)

/-! ## Metric catalog and the registration guard (`pcp_def_metrics.c`)

`struct act_metrics` (pcp_def_metrics.h): `count`, `descs`, `names`, ...
For the guard only the count matters; we also carry the metric names and
the descriptor instance domains so concrete catalogs can be written down.
-/

structure ActMetrics where
  count : Nat
  names : List String
  indoms : List Nat
deriving DecidableEq

/-- Outcome of the bounds guard in `act_add_metric` / `act_add_instance`:
either the `PANIC(EINVAL)` branch is taken or the registration call to the
external metric store proceeds. -/
inductive GuardOutcome
  | aborted
  | proceeded
deriving DecidableEq

/-- `act_add_metric` (pcp_def_metrics.c, lines 45-57):
`if (!metrics || metrics->count > metric) PANIC(EINVAL);` then
`pmiAddMetric(...)` proceeds.  The guard is transcribed exactly as written,
comparison direction included. -/
def act_add_metric (metrics : Option ActMetrics) (metric : Nat) : GuardOutcome :=
  match metrics with
  | none => .aborted
  | some ms => if ms.count > metric then .aborted else .proceeded

/-- `act_add_instance` (pcp_def_metrics.c, lines 70-80): identical guard
`if (!metrics || metrics->count > metric) PANIC(EINVAL);' then
`pmiAddInstance(desc->indom, name, inst)` proceeds. -/
def act_add_instance (metrics : Option ActMetrics) (metric : Nat)
    (_name : String) (_inst : Nat) : GuardOutcome :=
  match metrics with
  | none => .aborted
  | some ms => if ms.count > metric then .aborted else .proceeded

/-- The `record_header_metrics` catalog (pcp_def_metrics.c, lines 153-172):
a single metric `kernel.all.uptime`, `RECORD_HEADER_METRIC_COUNT = 1`,
`PM_INDOM_NULL` modelled as 0. -/
def record_header_metrics : ActMetrics :=
  { count := 1, names := ["kernel.all.uptime"], indoms := [0] }

/-! ## Bitmap testing

Both `pcp_def_cpu_metrics` and the per-sample writers test bitmap bits with
`b_array[i >> 3] & (1 << (i & 0x07))`. -/

def bitTest (bytes : Nat → Nat) (i : Nat) : Bool :=
  bytes (i >>> 3) &&& (1 <<< (i &&& 0x07)) != 0

/-! ## Definition phase: per-CPU instance registrations (`pcp_def_metrics.c`)

An instance registration records the arguments of one `pmiAddInstance`
call: `pmiAddInstance(desc->indom, name, inst)` (via `act_add_instance`,
whose bounds guard is modelled separately above). -/

inductive ActId
  | A_CPU
  | A_IRQ
  | A_PWR_CPU
  | A_NET_SOFT
deriving DecidableEq

/-- Index of `CPU_PERCPU_USER` in the CPU metric enum (pcp_def_metrics.h). -/
def CPU_PERCPU_USER : Nat := 11

/-- Index of `CPU_PERCPU_INTERRUPTS` in the CPU metric enum (pcp_def_metrics.h). -/
def CPU_PERCPU_INTERRUPTS : Nat := 22

structure CpuDefActivity where
  id : ActId
  nr_ini : Nat
  bitmapSize : Nat
  selBytes : Nat → Nat
  item_list : List String
  descIndom : Nat → Nat

structure InstReg where
  indom : Nat
  name : String
  inst : Nat
deriving DecidableEq

/-- `pcp_def_percpu_intr_instances` (pcp_def_metrics.c, lines 183-194):
`int inst = 0;` then for each `list` in `a->item_list`,
`pmsprintf(buf, .., "%s::cpu%d", list->item_name, cpu);`
`act_add_instance(a, CPU_PERCPU_INTERRUPTS, buf, inst++);`. -/
def pcp_def_percpu_intr_instances (a : CpuDefActivity) (cpu : Nat) : List InstReg :=
  a.item_list.enum.map fun p =>
    ⟨a.descIndom CPU_PERCPU_INTERRUPTS, p.2 ++ "::cpu" ++ toString cpu, p.1⟩

/-- `pcp_def_percpu_instance` (pcp_def_metrics.c, lines 266-272):
`pmsprintf(buf, .., "cpu%d", cpu); act_add_instance(a, CPU_PERCPU_USER, buf, cpu);`. -/
def pcp_def_percpu_instance (a : CpuDefActivity) (cpu : Nat) : List InstReg :=
  [⟨a.descIndom CPU_PERCPU_USER, "cpu" ++ toString cpu, cpu⟩]

/-- Instance registrations issued by `pcp_def_cpu_metrics`
(pcp_def_metrics.c, lines 331-389): loop
`for (i = 0; (i < a->nr_ini) && (i < a->bitmap->b_size + 1); i++)`,
skip unselected CPUs, CPU "all" (`i == 0`) registers no instance;
for `i != 0`: if `a->id == A_IRQ` call `pcp_def_percpu_intr_instances(a, i - 1)`
on every selected CPU, otherwise call `pcp_def_percpu_instance(a, i - 1)`
only for the first selected CPU (`first` flag). -/
def pcp_def_cpu_metrics_instances (a : CpuDefActivity) : List InstReg :=
  (((List.range (min a.nr_ini (a.bitmapSize + 1))).filter
      (fun i => bitTest a.selBytes i)).foldl
    (fun st i =>
      if i = 0 then st
      else if a.id = ActId.A_IRQ then
        (st.1, st.2 ++ pcp_def_percpu_intr_instances a (i - 1))
      else if st.1 then (false, st.2 ++ pcp_def_percpu_instance a (i - 1))
      else st)
    (true, ([] : List InstReg))).2

/-- No two issued registrations share `(indom, inst)` while carrying
different labels (the spec's `ConflictingInstance` condition). -/
def conflictFreeRegs : List InstReg → Bool
  | [] => true
  | r :: rest =>
    (rest.all fun s => !(r.indom == s.indom && r.inst == s.inst && r.name != s.name))
      && conflictFreeRegs rest

/-- A concrete A_IRQ activity: one interrupt line "eth0", three instance
slots (CPU "all" plus cpu0 and cpu1), every bitmap bit set. -/
def irqDefExample : CpuDefActivity :=
  { id := ActId.A_IRQ, nr_ini := 3, bitmapSize := 8, selBytes := fun _ => 0xff,
    item_list := ["eth0"], descIndom := fun _ => PMI_INDOM 60 40 }

/-! ## Per-sample CPU writer (`pcp_stats.c`, `pcp_print_cpu_stats`, lines 174-287)

`struct stats_cpu` raw counters are `unsigned long long`; emitted values go
through `snprintf("%llu", ...)`, so arithmetic wraps modulo `2 ^ 64`.
A `Put` records the arguments of one `pmiPutValue(name, instance, value)`
call, with the printed number kept as a `Nat`. -/

def sub64 (a b : Nat) : Nat := (a % 2 ^ 64 + (2 ^ 64 - b % 2 ^ 64)) % 2 ^ 64

def add64 (a b : Nat) : Nat := (a + b) % 2 ^ 64

structure StatsCpu where
  cpu_user : Nat
  cpu_nice : Nat
  cpu_sys : Nat
  cpu_idle : Nat
  cpu_iowait : Nat
  cpu_steal : Nat
  cpu_hardirq : Nat
  cpu_softirq : Nat
  cpu_guest : Nat
  cpu_guest_nice : Nat
deriving DecidableEq

structure Put where
  name : String
  inst : Option String
  value : Nat
deriving DecidableEq

structure CpuWriterInput where
  nr_ini : Nat
  nrCurr : Nat
  bitmapSize : Nat
  selBytes : Nat → Nat
  bufCurr : Nat → StatsCpu
  bufPrev : Nat → StatsCpu

/-- Lines 187-189: `if (a->nr[curr] > a->nr_ini) a->nr_ini = a->nr[curr];` —
the instance count the loop then runs over. -/
def cpuUpdatedNrIni (a : CpuWriterInput) : Nat :=
  if a.nrCurr > a.nr_ini then a.nrCurr else a.nr_ini

/-- Loop bound of line 200: `(i < a->nr_ini) && (i < a->bitmap->b_size + 1)`
(with `nr_ini` already updated). -/
def cpuLoopBound (a : CpuWriterInput) : Nat :=
  min (cpuUpdatedNrIni a) (a.bitmapSize + 1)

/-- The offline bitmap is zero-initialised (line 179) and only filled by
`get_global_cpu_statistics` when `a->nr_ini > 1` (lines 195-198); `offBytes`
is that collaborator's output. -/
def cpuOffline (a : CpuWriterInput) (offBytes : Nat → Nat) (i : Nat) : Bool :=
  if cpuUpdatedNrIni a > 1 then bitTest offBytes i else false

/-- Indices surviving the selection/offline filter of lines 203-206; for
exactly these the raw records `scc`/`scp` are addressed and used
(lines 208-209). -/
def cpuFilteredIndices (a : CpuWriterInput) (offBytes : Nat → Nat) : List Nat :=
  (List.range (cpuLoopBound a)).filter
    (fun i => bitTest a.selBytes i && !cpuOffline a offBytes i)

/-- The eleven `pmiPutValue` calls of lines 254-285 for CPU "all" (`i == 0`,
`str = NULL`): raw counter values, never interval-scaled. -/
def allCpuRealPuts (scc : StatsCpu) : List Put :=
  [⟨"kernel.all.cpu.user", none, sub64 scc.cpu_user scc.cpu_guest⟩,
   ⟨"kernel.all.cpu.nice", none, sub64 scc.cpu_nice scc.cpu_guest_nice⟩,
   ⟨"kernel.all.cpu.sys", none, scc.cpu_sys⟩,
   ⟨"kernel.all.cpu.iowait", none, scc.cpu_iowait⟩,
   ⟨"kernel.all.cpu.steal", none, scc.cpu_steal⟩,
   ⟨"kernel.all.cpu.irq.total", none, add64 scc.cpu_hardirq scc.cpu_softirq⟩,
   ⟨"kernel.all.cpu.irq.hard", none, scc.cpu_hardirq⟩,
   ⟨"kernel.all.cpu.irq.soft", none, scc.cpu_softirq⟩,
   ⟨"kernel.all.cpu.guest", none, scc.cpu_guest⟩,
   ⟨"kernel.all.cpu.guest_nice", none, scc.cpu_guest_nice⟩,
   ⟨"kernel.all.cpu.idle", none, scc.cpu_idle⟩]

/-- The eleven `pmiPutValue` calls of lines 254-285 for one per-CPU instance
(`i >= 1`, `str = "cpu<i-1>"`). -/
def percpuRealPuts (j : Nat) (scc : StatsCpu) : List Put :=
  [⟨"kernel.percpu.cpu.user", some ("cpu" ++ toString j), sub64 scc.cpu_user scc.cpu_guest⟩,
   ⟨"kernel.percpu.cpu.nice", some ("cpu" ++ toString j), sub64 scc.cpu_nice scc.cpu_guest_nice⟩,
   ⟨"kernel.percpu.cpu.sys", some ("cpu" ++ toString j), scc.cpu_sys⟩,
   ⟨"kernel.percpu.cpu.iowait", some ("cpu" ++ toString j), scc.cpu_iowait⟩,
   ⟨"kernel.percpu.cpu.steal", some ("cpu" ++ toString j), scc.cpu_steal⟩,
   ⟨"kernel.percpu.cpu.irq.total", some ("cpu" ++ toString j), add64 scc.cpu_hardirq scc.cpu_softirq⟩,
   ⟨"kernel.percpu.cpu.irq.hard", some ("cpu" ++ toString j), scc.cpu_hardirq⟩,
   ⟨"kernel.percpu.cpu.irq.soft", some ("cpu" ++ toString j), scc.cpu_softirq⟩,
   ⟨"kernel.percpu.cpu.guest", some ("cpu" ++ toString j), scc.cpu_guest⟩,
   ⟨"kernel.percpu.cpu.guest_nice", some ("cpu" ++ toString j), scc.cpu_guest_nice⟩,
   ⟨"kernel.percpu.cpu.idle", some ("cpu" ++ toString j), scc.cpu_idle⟩]

/-- The ten `pmiPutValue` calls of the tickless branch (lines 237-251):
every time bucket `"0"`, idle `"100"`, nothing read from the raw record. -/
def ticklessPuts (j : Nat) : List Put :=
  [⟨"kernel.percpu.cpu.user", some ("cpu" ++ toString j), 0⟩,
   ⟨"kernel.percpu.cpu.nice", some ("cpu" ++ toString j), 0⟩,
   ⟨"kernel.percpu.cpu.sys", some ("cpu" ++ toString j), 0⟩,
   ⟨"kernel.percpu.cpu.iowait", some ("cpu" ++ toString j), 0⟩,
   ⟨"kernel.percpu.cpu.steal", some ("cpu" ++ toString j), 0⟩,
   ⟨"kernel.percpu.cpu.hardirq", some ("cpu" ++ toString j), 0⟩,
   ⟨"kernel.percpu.cpu.softirq", some ("cpu" ++ toString j), 0⟩,
   ⟨"kernel.percpu.cpu.guest", some ("cpu" ++ toString j), 0⟩,
   ⟨"kernel.percpu.cpu.guest_nice", some ("cpu" ++ toString j), 0⟩,
   ⟨"kernel.percpu.cpu.idle", some ("cpu" ++ toString j), 100⟩]

/-- `deltot_jiffies` before the loop: initialised to 1 (line 177), set by
`get_global_cpu_statistics` (collaborator output `ggcsDeltot`) when the
updated `nr_ini > 1` (lines 195-198). -/
def cpuWriterDeltotInit (ggcsDeltot nrIniUpd : Nat) : Nat :=
  if nrIniUpd > 1 then ggcsDeltot else 1

/-- The interval value for CPU "all" after lines 211-226: recomputed via
`get_per_cpu_interval` on a UP machine (`nr_ini == 1`), then forced to 1 if
zero ("CPU "all" cannot be tickless"). -/
def cpu_all_interval (gpci : StatsCpu → StatsCpu → Nat) (ggcsDeltot nrIniUpd : Nat)
    (scc scp : StatsCpu) : Nat :=
  let d := if nrIniUpd = 1 then gpci scc scp else cpuWriterDeltotInit ggcsDeltot nrIniUpd
  if d = 0 then 1 else d

/-- Emission for one filter-surviving loop index (lines 208-286): CPU "all"
always emits the real counters; a per-CPU instance whose
`get_per_cpu_interval` delta is zero takes the tickless branch and
`continue`s, otherwise it emits the real counters. -/
def cpu_instance_puts (gpci : StatsCpu → StatsCpu → Nat) (scc scp : StatsCpu)
    (i : Nat) : List Put :=
  if i = 0 then allCpuRealPuts scc
  else if gpci scc scp = 0 then ticklessPuts (i - 1)
  else percpuRealPuts (i - 1) scc

/-- `pcp_print_cpu_stats` as the per-instance list of `pmiPutValue` calls it
makes: the filtered loop indices paired with their emissions. -/
def pcp_print_cpu_stats_puts (gpci : StatsCpu → StatsCpu → Nat)
    (offBytes : Nat → Nat) (a : CpuWriterInput) : List (Nat × List Put) :=
  (cpuFilteredIndices a offBytes).map
    (fun i => (i, cpu_instance_puts gpci (a.bufCurr i) (a.bufPrev i) i))

/-! ## Per-sample softnet writer (`pcp_stats.c`, `pcp_print_softnet_stats`,
lines 344-398): same `nr_ini` update, same loop bound and bitmap filter;
CPU "all" (`i == 0`) is skipped with `continue` after the filter, per-CPU
instances emit six raw counters. -/

structure StatsSoftnet where
  processed : Nat
  dropped : Nat
  time_squeeze : Nat
  received_rps : Nat
  flow_limit : Nat
  backlog_len : Nat
deriving DecidableEq

structure SoftnetWriterInput where
  nr_ini : Nat
  nrCurr : Nat
  bitmapSize : Nat
  selBytes : Nat → Nat
  bufCurr : Nat → StatsSoftnet

def softnetUpdatedNrIni (a : SoftnetWriterInput) : Nat :=
  if a.nrCurr > a.nr_ini then a.nrCurr else a.nr_ini

def softnetLoopBound (a : SoftnetWriterInput) : Nat :=
  min (softnetUpdatedNrIni a) (a.bitmapSize + 1)

/-- Indices surviving the selection/offline filter of lines 365-368
(`offBytes` is the bitmap filled by `get_global_soft_statistics`). -/
def softnetFilteredIndices (a : SoftnetWriterInput) (offBytes : Nat → Nat) : List Nat :=
  (List.range (softnetLoopBound a)).filter
    (fun i => bitTest a.selBytes i && !bitTest offBytes i)

/-- The six `pmiPutValue` calls of lines 380-396 for one per-CPU instance. -/
def softnetPercpuPuts (j : Nat) (ssnc : StatsSoftnet) : List Put :=
  [⟨"network.softnet.percpu.processed", some ("cpu" ++ toString j), ssnc.processed % 2 ^ 64⟩,
   ⟨"network.softnet.percpu.dropped", some ("cpu" ++ toString j), ssnc.dropped % 2 ^ 64⟩,
   ⟨"network.softnet.percpu.time_squeeze", some ("cpu" ++ toString j), ssnc.time_squeeze % 2 ^ 64⟩,
   ⟨"network.softnet.percpu.received_rps", some ("cpu" ++ toString j), ssnc.received_rps % 2 ^ 64⟩,
   ⟨"network.softnet.percpu.flow_limit", some ("cpu" ++ toString j), ssnc.flow_limit % 2 ^ 64⟩,
   ⟨"network.softnet.percpu.backlog_length", some ("cpu" ++ toString j), ssnc.backlog_len % 2 ^ 64⟩]

/-- Emission for one filter-surviving softnet loop index: `i == 0`
(CPU "all") is `continue`d past (lines 372-375) and emits nothing. -/
def softnet_instance_puts (ssnc : StatsSoftnet) (i : Nat) : List Put :=
  if i = 0 then [] else softnetPercpuPuts (i - 1) ssnc

/-- `pcp_print_softnet_stats` as the per-instance list of `pmiPutValue`
calls it makes. -/
def pcp_print_softnet_stats_puts (offBytes : Nat → Nat)
    (a : SoftnetWriterInput) : List (Nat × List Put) :=
  (softnetFilteredIndices a offBytes).map
    (fun i => (i, softnet_instance_puts (a.bufCurr i) i))

/-! ## Sample buffer growth (`pcp_stats.c`, `pcp_reallocate_buffers`, lines 156-163) -/

structure BufAct where
  nr_ini : Int
  nr2 : Int
  nrCurr : Nat
  nr_allocated : Nat
  buf : List Nat
deriving DecidableEq

/-- Modelled from the spec: `reallocate_buffers` (declared in `sa.h`, defined
in sysstat's `sa_common.c`, which is not among the source files) — §4.4
`ensure_capacity`: "grows the backing store to at least `observed_count`
(growth must not invalidate previously returned element addresses for
already-allocated instances — use reallocation semantics that preserve prior
contents)", and testable property 3: `allocated_instances` after the calls
equals the maximum of the counts, so growth is to exactly the requested
count.  Raw per-instance records are abstracted as the `Nat` contents of
`buf`; fresh records are zeroed. -/
def reallocate_buffers (a : BufAct) (count : Nat) : BufAct :=
  { a with nr_allocated := count,
           buf := a.buf ++ List.replicate (count - a.buf.length) 0 }

/-- `pcp_reallocate_buffers` (pcp_stats.c, lines 156-163):
`if ((a->nr[curr] = values->numval) > a->nr_allocated) {`
`    if (a->nr_ini < 0) a->nr_ini = a->nr2 = values->numval;`
`    reallocate_buffers(a, a->nr[curr], flags); }`. -/
def pcp_reallocate_buffers (a : BufAct) (numval : Nat) : BufAct :=
  let a1 := { a with nrCurr := numval }
  if numval > a1.nr_allocated then
    let a2 := if a1.nr_ini < 0 then { a1 with nr_ini := (numval : Int), nr2 := (numval : Int) } else a1
    reallocate_buffers a2 numval
  else a1


/-! ## Import dispatcher (`pcp_stats.c`, `pcp_read_stats`, lines 4411-4892)

The single `switch (values->pmid)` is transcribed case list by case list,
in source order: one pmid list per `case` group, concatenated into an
association table from pmid to the owning statistic group (the
`pcp_read_*_stats` reader invoked for it).  A pmid matching no case falls
through the `switch` and the function returns having touched nothing. -/

inductive PcpGroup
  | gFileHeader
  | gRecordHeader
  | gCpu
  | gPwrCpu
  | gNetSoft
  | gPcsw
  | gIrq
  | gSwap
  | gPaging
  | gIoStats
  | gMemory
  | gKtables
  | gQueue
  | gDisk
  | gNetDev
  | gNetEDev
  | gSerial
  | gNetSock
  | gNetIp
  | gNetEip
  | gNetNfs
  | gNetNfsd
  | gNetIcmp
  | gNetEicmp
  | gNetTcp
  | gNetEtcp
  | gNetUdp
  | gNetSock6
  | gNetIp6
  | gNetEip6
  | gNetIcmp6
  | gNetEicmp6
  | gNetUdp6
  | gHuge
  | gPwrFan
  | gPwrTemp
  | gPwrIn
  | gPwrBat
  | gPwrUsb
  | gFilesys
  | gNetFc
  | gPsiCpu
  | gPsiIoStats
  | gPsiMem
deriving DecidableEq

def casesFileHeader : List Nat :=
  [PMI_ID 60 0 32, PMI_ID 60 0 48, PMI_ID 60 12 0, PMI_ID 60 12 2,
   PMI_ID 60 12 4, PMI_ID 60 12 3]

def casesRecordHeader : List Nat := [PMI_ID 60 26 0]

def casesCpu : List Nat :=
  [PMI_ID 60 0 20, PMI_ID 60 0 22, PMI_ID 60 0 21, PMI_ID 60 0 23,
   PMI_ID 60 0 35, PMI_ID 60 0 34, PMI_ID 60 0 53, PMI_ID 60 0 54,
   PMI_ID 60 0 55, PMI_ID 60 0 60, PMI_ID 60 0 81, PMI_ID 60 0 0,
   PMI_ID 60 0 1, PMI_ID 60 0 2, PMI_ID 60 0 3, PMI_ID 60 0 30,
   PMI_ID 60 0 31, PMI_ID 60 0 56, PMI_ID 60 0 57, PMI_ID 60 0 58,
   PMI_ID 60 0 61, PMI_ID 60 0 83, PMI_ID 60 4 1]

def casesPwrCpu : List Nat := [PMI_ID 60 18 0]

def casesNetSoft : List Nat :=
  [PMI_ID 60 57 0, PMI_ID 60 57 1, PMI_ID 60 57 2, PMI_ID 60 57 4,
   PMI_ID 60 57 5, PMI_ID 60 57 12, PMI_ID 60 57 6, PMI_ID 60 57 7,
   PMI_ID 60 57 8, PMI_ID 60 57 10, PMI_ID 60 57 11, PMI_ID 60 57 13]

def casesPcsw : List Nat := [PMI_ID 60 0 13, PMI_ID 60 0 14]

def casesIrq : List Nat := [PMI_ID 60 0 12, PMI_ID 60 4 0]

def casesSwap : List Nat := [PMI_ID 60 0 8, PMI_ID 60 0 9]

def casesPaging : List Nat :=
  [PMI_ID 60 28 6, PMI_ID 60 28 7, PMI_ID 60 28 16, PMI_ID 60 28 17,
   PMI_ID 60 28 13, PMI_ID 60 28 176, PMI_ID 60 28 177, PMI_ID 60 28 178]

def casesIoStats : List Nat :=
  [PMI_ID 60 0 29, PMI_ID 60 0 24, PMI_ID 60 0 25, PMI_ID 60 0 96,
   PMI_ID 60 0 41, PMI_ID 60 0 42, PMI_ID 60 0 98]

def casesMemory : List Nat :=
  [PMI_ID 60 1 9, PMI_ID 60 1 0, PMI_ID 60 1 2, PMI_ID 60 1 58,
   PMI_ID 60 1 1, PMI_ID 60 1 4, PMI_ID 60 1 5, PMI_ID 60 1 26,
   PMI_ID 60 1 14, PMI_ID 60 1 15, PMI_ID 60 1 22, PMI_ID 60 1 30,
   PMI_ID 60 1 25, PMI_ID 60 1 43, PMI_ID 60 1 27, PMI_ID 60 1 51,
   PMI_ID 60 1 21, PMI_ID 60 1 20, PMI_ID 60 1 13]

def casesKtables : List Nat :=
  [PMI_ID 60 27 5, PMI_ID 60 27 0, PMI_ID 60 27 3, PMI_ID 60 72 3]

def casesQueue : List Nat :=
  [PMI_ID 60 2 2, PMI_ID 60 2 3, PMI_ID 60 0 16, PMI_ID 60 2 0]

def casesDisk : List Nat :=
  [PMI_ID 60 0 4, PMI_ID 60 0 5, PMI_ID 60 0 28, PMI_ID 60 0 37,
   PMI_ID 60 0 38, PMI_ID 60 0 39, PMI_ID 60 0 90, PMI_ID 60 0 72,
   PMI_ID 60 0 73, PMI_ID 60 0 79, PMI_ID 60 0 92, PMI_ID 60 0 46,
   PMI_ID 60 0 47]

def casesNetDev : List Nat :=
  [PMI_ID 60 3 1, PMI_ID 60 3 9, PMI_ID 60 3 0, PMI_ID 60 3 8,
   PMI_ID 60 3 6, PMI_ID 60 3 15, PMI_ID 60 3 7]

def casesNetEDev : List Nat :=
  [PMI_ID 60 3 2, PMI_ID 60 3 10, PMI_ID 60 3 13, PMI_ID 60 3 3,
   PMI_ID 60 3 11, PMI_ID 60 3 14, PMI_ID 60 3 5, PMI_ID 60 3 4,
   PMI_ID 60 3 12]

def casesSerial : List Nat :=
  [PMI_ID 60 74 0, PMI_ID 60 74 1, PMI_ID 60 74 2, PMI_ID 60 74 3,
   PMI_ID 60 74 4, PMI_ID 60 74 5]

def casesNetSock : List Nat :=
  [PMI_ID 60 11 9, PMI_ID 60 11 0, PMI_ID 60 11 3, PMI_ID 60 11 6,
   PMI_ID 60 11 15, PMI_ID 60 11 11]

def casesNetIp : List Nat :=
  [PMI_ID 60 14 2, PMI_ID 60 14 5, PMI_ID 60 14 8, PMI_ID 60 14 9,
   PMI_ID 60 14 13, PMI_ID 60 14 14, PMI_ID 60 14 16, PMI_ID 60 14 18]

def casesNetEip : List Nat :=
  [PMI_ID 60 14 3, PMI_ID 60 14 4, PMI_ID 60 14 6, PMI_ID 60 14 7,
   PMI_ID 60 14 10, PMI_ID 60 14 11, PMI_ID 60 14 15, PMI_ID 60 14 17]

def casesNetNfs : List Nat := [PMI_ID 60 7 20, PMI_ID 60 7 21, PMI_ID 60 7 4]

def casesNetNfsd : List Nat :=
  [PMI_ID 60 7 30, PMI_ID 60 7 34, PMI_ID 60 7 44, PMI_ID 60 7 45,
   PMI_ID 60 7 46, PMI_ID 60 7 35, PMI_ID 60 7 36, PMI_ID 60 7 12]

def casesNetIcmp : List Nat :=
  [PMI_ID 60 14 20, PMI_ID 60 14 33, PMI_ID 60 14 27, PMI_ID 60 14 28,
   PMI_ID 60 14 40, PMI_ID 60 14 41, PMI_ID 60 14 29, PMI_ID 60 14 30,
   PMI_ID 60 14 42, PMI_ID 60 14 43, PMI_ID 60 14 31, PMI_ID 60 14 32,
   PMI_ID 60 14 44, PMI_ID 60 14 45]

def casesNetEicmp : List Nat :=
  [PMI_ID 60 14 21, PMI_ID 60 14 34, PMI_ID 60 14 22, PMI_ID 60 14 35,
   PMI_ID 60 14 23, PMI_ID 60 14 36, PMI_ID 60 14 24, PMI_ID 60 14 37,
   PMI_ID 60 14 25, PMI_ID 60 14 38, PMI_ID 60 14 26, PMI_ID 60 14 39]

def casesNetTcp : List Nat :=
  [PMI_ID 60 14 54, PMI_ID 60 14 55, PMI_ID 60 14 59, PMI_ID 60 14 60]

def casesNetEtcp : List Nat :=
  [PMI_ID 60 14 56, PMI_ID 60 14 57, PMI_ID 60 14 61, PMI_ID 60 14 62,
   PMI_ID 60 14 63]

def casesNetUdp : List Nat :=
  [PMI_ID 60 14 70, PMI_ID 60 14 74, PMI_ID 60 14 71, PMI_ID 60 14 72]

def casesNetSock6 : List Nat :=
  [PMI_ID 60 73 0, PMI_ID 60 73 1, PMI_ID 60 73 3, PMI_ID 60 73 4]

def casesNetIp6 : List Nat :=
  [PMI_ID 60 58 0, PMI_ID 60 58 9, PMI_ID 60 58 8, PMI_ID 60 58 10,
   PMI_ID 60 58 14, PMI_ID 60 58 15, PMI_ID 60 58 20, PMI_ID 60 58 21,
   PMI_ID 60 58 17, PMI_ID 60 58 19]

def casesNetEip6 : List Nat :=
  [PMI_ID 60 58 1, PMI_ID 60 58 4, PMI_ID 60 58 5, PMI_ID 60 58 2,
   PMI_ID 60 58 7, PMI_ID 60 58 11, PMI_ID 60 58 3, PMI_ID 60 58 12,
   PMI_ID 60 58 16, PMI_ID 60 58 18, PMI_ID 60 58 6]

def casesNetIcmp6 : List Nat :=
  [PMI_ID 60 58 32, PMI_ID 60 58 34, PMI_ID 60 58 41, PMI_ID 60 58 42,
   PMI_ID 60 58 57, PMI_ID 60 58 43, PMI_ID 60 58 44, PMI_ID 60 58 59,
   PMI_ID 60 58 45, PMI_ID 60 58 60, PMI_ID 60 58 46, PMI_ID 60 58 61,
   PMI_ID 60 58 47, PMI_ID 60 58 48, PMI_ID 60 58 63, PMI_ID 60 58 49,
   PMI_ID 60 58 64]

def casesNetEicmp6 : List Nat :=
  [PMI_ID 60 58 33, PMI_ID 60 58 37, PMI_ID 60 58 52, PMI_ID 60 58 39,
   PMI_ID 60 58 54, PMI_ID 60 58 40, PMI_ID 60 58 55, PMI_ID 60 58 50,
   PMI_ID 60 58 65, PMI_ID 60 58 38, PMI_ID 60 58 53]

def casesNetUdp6 : List Nat :=
  [PMI_ID 60 58 67, PMI_ID 60 58 70, PMI_ID 60 58 68, PMI_ID 60 58 69]

def casesHuge : List Nat :=
  [PMI_ID 60 1 60, PMI_ID 60 1 61, PMI_ID 60 1 62, PMI_ID 60 1 63]

def casesPwrFan : List Nat := [PMI_ID 34 0 0, PMI_ID 34 0 1, PMI_ID 34 0 2]

def casesPwrTemp : List Nat := [PMI_ID 34 1 0, PMI_ID 34 1 1, PMI_ID 34 1 2]

def casesPwrIn : List Nat := [PMI_ID 34 2 0, PMI_ID 34 2 1, PMI_ID 34 2 2]

def casesPwrBat : List Nat := [PMI_ID 34 4 0, PMI_ID 34 4 1]

def casesPwrUsb : List Nat :=
  [PMI_ID 34 3 0, PMI_ID 34 3 1, PMI_ID 34 3 2, PMI_ID 34 3 3,
   PMI_ID 34 3 4, PMI_ID 34 3 5]

def casesFilesys : List Nat :=
  [PMI_ID 60 5 1, PMI_ID 60 5 3, PMI_ID 60 5 2, PMI_ID 60 5 8,
   PMI_ID 60 5 4, PMI_ID 60 5 6, PMI_ID 60 5 5, PMI_ID 60 5 10]

def casesNetFc : List Nat :=
  [PMI_ID 60 91 0, PMI_ID 60 91 1, PMI_ID 60 91 2, PMI_ID 60 91 3]

def casesPsiCpu : List Nat := [PMI_ID 60 83 1, PMI_ID 60 83 0]

def casesPsiIoStats : List Nat :=
  [PMI_ID 60 85 1, PMI_ID 60 85 0, PMI_ID 60 85 3, PMI_ID 60 85 2]

def casesPsiMem : List Nat :=
  [PMI_ID 60 84 1, PMI_ID 60 84 0, PMI_ID 60 84 3, PMI_ID 60 84 2]

def tagGroup (g : PcpGroup) (cases : List Nat) : List (Nat × PcpGroup) :=
  cases.map fun p => (p, g)

def dispatchTable : List (Nat × PcpGroup) :=
  tagGroup .gFileHeader casesFileHeader ++ tagGroup .gRecordHeader casesRecordHeader ++
  tagGroup .gCpu casesCpu ++ tagGroup .gPwrCpu casesPwrCpu ++
  tagGroup .gNetSoft casesNetSoft ++ tagGroup .gPcsw casesPcsw ++
  tagGroup .gIrq casesIrq ++ tagGroup .gSwap casesSwap ++
  tagGroup .gPaging casesPaging ++ tagGroup .gIoStats casesIoStats ++
  tagGroup .gMemory casesMemory ++ tagGroup .gKtables casesKtables ++
  tagGroup .gQueue casesQueue ++ tagGroup .gDisk casesDisk ++
  tagGroup .gNetDev casesNetDev ++ tagGroup .gNetEDev casesNetEDev ++
  tagGroup .gSerial casesSerial ++ tagGroup .gNetSock casesNetSock ++
  tagGroup .gNetIp casesNetIp ++ tagGroup .gNetEip casesNetEip ++
  tagGroup .gNetNfs casesNetNfs ++ tagGroup .gNetNfsd casesNetNfsd ++
  tagGroup .gNetIcmp casesNetIcmp ++ tagGroup .gNetEicmp casesNetEicmp ++
  tagGroup .gNetTcp casesNetTcp ++ tagGroup .gNetEtcp casesNetEtcp ++
  tagGroup .gNetUdp casesNetUdp ++ tagGroup .gNetSock6 casesNetSock6 ++
  tagGroup .gNetIp6 casesNetIp6 ++ tagGroup .gNetEip6 casesNetEip6 ++
  tagGroup .gNetIcmp6 casesNetIcmp6 ++ tagGroup .gNetEicmp6 casesNetEicmp6 ++
  tagGroup .gNetUdp6 casesNetUdp6 ++ tagGroup .gHuge casesHuge ++
  tagGroup .gPwrFan casesPwrFan ++ tagGroup .gPwrTemp casesPwrTemp ++
  tagGroup .gPwrIn casesPwrIn ++ tagGroup .gPwrBat casesPwrBat ++
  tagGroup .gPwrUsb casesPwrUsb ++ tagGroup .gFilesys casesFilesys ++
  tagGroup .gNetFc casesNetFc ++ tagGroup .gPsiCpu casesPsiCpu ++
  tagGroup .gPsiIoStats casesPsiIoStats ++ tagGroup .gPsiMem casesPsiMem

def knownPmids : List Nat := dispatchTable.map Prod.fst

structure ValueSet where
  pmid : Nat
  numval : Int
deriving DecidableEq

/-- Routing decision of `pcp_read_stats`: the early return
`if (values->numval <= 0) return;` (line 4415), then the `switch`; `none`
means no reader is invoked and the function returns unchanged. -/
def pcp_read_stats_route (v : ValueSet) : Option PcpGroup :=
  if v.numval ≤ 0 then none else List.lookup v.pmid dispatchTable

/-- `pcp_read_stats` as a state transformer, with the per-group readers
(`pcp_read_cpu_stats`, ...) abstracted as `readers`: when no case matches,
the state is returned untouched. -/
def pcp_read_stats {σ : Type} (readers : PcpGroup → σ → σ) (v : ValueSet) (s : σ) : σ :=
  match pcp_read_stats_route v with
  | none => s
  | some g => readers g s

set_option maxRecDepth 10000

/-! ## Helper lemmas -/

theorem and_mask_eq_mod (x n : Nat) (mask m : Nat) (hmask : mask = 2 ^ n - 1)
    (hm : m = 2 ^ n) : x &&& mask = x % m := by
  subst hmask hm
  exact Nat.and_pow_two_sub_one_eq_mod x n

theorem mod_mod_same (x m : Nat) : x % m % m = x % m :=
  Nat.mod_mod_of_dvd x dvd_rfl

theorem lookup_eq_some_of_mem_keyNodup {β : Type} (l : List (Nat × β)) (k : Nat)
    (g : β) (hm : (k, g) ∈ l) (hn : (l.map Prod.fst).Nodup) : l.lookup k = some g := by
  induction l with
  | nil => cases hm
  | cons p t ih =>
    obtain ⟨a, b⟩ := p
    rcases List.mem_cons.mp hm with hp | ht
    · rw [show k = a from congrArg Prod.fst hp, show g = b from congrArg Prod.snd hp]
      simp [List.lookup_cons]
    · have hk : k ∈ t.map Prod.fst := List.mem_map_of_mem Prod.fst ht
      have hne : k ≠ a := by
        intro he
        subst he
        exact (List.nodup_cons.mp hn).1 hk
      have hb : (k == a) = false := beq_eq_false_iff_ne.mpr hne
      rw [List.lookup_cons, hb]
      exact ih ht (List.nodup_cons.mp hn).2

theorem map_pair_fst {α β : Type} (g : α → β) (l : List α) :
    (l.map fun i => (i, g i)).map Prod.fst = l := by
  induction l with
  | nil => rfl
  | cons x t ih => simp [ih]

theorem pos_of_ite_zero_one (d : Nat) : 0 < if d = 0 then 1 else d := by
  split
  · omega
  · omega

/-! ## Claim theorems -/

/-- C1: the catalog bounds guard in `act_add_metric` / `act_add_instance` is
inverted in the code: with the one-entry `record_header_metrics` catalog
(`count = 1`), the in-bounds index 0 PANICs while the out-of-bounds index 1
proceeds to the registration (and to the out-of-bounds `names[metric]` /
`descs[metric]` access) — the exact opposite of the claimed
`m >= metrics->count` failure condition. -/
theorem c1_act_add_guard_inverted :
    act_add_metric (some record_header_metrics) 0 = GuardOutcome.aborted ∧
    act_add_metric (some record_header_metrics) 1 = GuardOutcome.proceeded ∧
    act_add_instance (some record_header_metrics) 0 "kernel.all.uptime" 0 =
      GuardOutcome.aborted ∧
    act_add_instance (some record_header_metrics) 1 "kernel.all.uptime" 0 =
      GuardOutcome.proceeded ∧
    act_add_metric none 0 = GuardOutcome.aborted := by
  decide

/-- C6: the metric-identifier encoder matches the specified bit layout:
`PMI_ID` equals the spec's `(domain & 0x1FF) << 22 | (cluster & 0xFFF) << 10
| (item & 0x3FF)` and `PMI_INDOM` the spec's
`(domain & 0x1FF) << 22 | (serial & 0x3FFFFF)`; moreover, for in-range
fields the three (respectively two) fields occupy disjoint bit ranges, so
the packed identifier is exactly `domain * 2^22 + cluster * 2^10 + item`
(respectively `domain * 2^22 + serial`). -/
theorem c6_identifier_bit_layout :
    (∀ d c i, PMI_ID d c i = spec_metric_id_layout d c i) ∧
    (∀ d s, PMI_INDOM d s = spec_indom_id_layout d s) ∧
    (∀ d c i, d < 512 → c < 4096 → i < 1024 →
      PMI_ID d c i = d * 2 ^ 22 + c * 2 ^ 10 + i) ∧
    (∀ d s, d < 512 → s < 4194304 → PMI_INDOM d s = d * 2 ^ 22 + s) := by
  refine ⟨fun d c i => rfl, fun d s => rfl, fun d c i hd hc hi => ?_, fun d s hd hs => ?_⟩
  · have h1 : d &&& 511 = d := Nat.and_pow_two_sub_one_of_lt_two_pow (show d < 2 ^ 9 by omega)
    have h2 : c &&& 4095 = c := Nat.and_pow_two_sub_one_of_lt_two_pow (show c < 2 ^ 12 by omega)
    have h3 : i &&& 1023 = i := Nat.and_pow_two_sub_one_of_lt_two_pow (show i < 2 ^ 10 by omega)
    show ((d &&& 511) <<< 22 ||| (c &&& 4095) <<< 10) ||| (i &&& 1023) =
      d * 2 ^ 22 + c * 2 ^ 10 + i
    rw [h1, h2, h3, Nat.shiftLeft_eq, Nat.shiftLeft_eq]
    have hblt : c * 2 ^ 10 < 2 ^ 22 := by
      calc c * 2 ^ 10 ≤ 4095 * 2 ^ 10 := Nat.mul_le_mul_right _ (by omega)
        _ < 2 ^ 22 := by norm_num
    have e1 : d * 2 ^ 22 ||| c * 2 ^ 10 = d * 2 ^ 22 + c * 2 ^ 10 := by
      rw [Nat.mul_comm d (2 ^ 22)]
      exact (Nat.mul_add_lt_is_or hblt d).symm
    have hilt : i < 2 ^ 10 := by
      have : (2 : Nat) ^ 10 = 1024 := by norm_num
      omega
    have e2 : d * 2 ^ 22 + c * 2 ^ 10 = 2 ^ 10 * (d * 2 ^ 12 + c) := by ring
    rw [e1, e2, ← Nat.mul_add_lt_is_or hilt (d * 2 ^ 12 + c)]
  · have h1 : d &&& 511 = d := Nat.and_pow_two_sub_one_of_lt_two_pow (show d < 2 ^ 9 by omega)
    have h4 : s &&& 4194303 = s :=
      Nat.and_pow_two_sub_one_of_lt_two_pow (show s < 2 ^ 22 by omega)
    show (d &&& 511) <<< 22 ||| (s &&& 4194303) = d * 2 ^ 22 + s
    rw [h1, h4, Nat.shiftLeft_eq]
    have hslt : s < 2 ^ 22 := by omega
    rw [Nat.mul_comm d (2 ^ 22)]
    rw [← Nat.mul_add_lt_is_or hslt d]

/-- C6 witness: the layout theorem evaluated at the concrete in-range triple
used for `PMID_CPU_ALLCPU_USER = PMI_ID(60, 0, 20)`. -/
theorem c6_layout_witness :
    PMI_ID 60 0 20 = 60 * 2 ^ 22 + 0 * 2 ^ 10 + 20 :=
  c6_identifier_bit_layout.2.2.1 60 0 20 (by decide) (by decide) (by decide)

/-- C7 counterexample: the claim says encoding `domain = 512 > 511` fails
with `OutOfRange` rather than producing an identifier; the `PMI_ID` macro
has no failure path at all and silently truncates, producing the very same
identifier as the in-range triple `(0, 0, 0)`. -/
theorem c7_counterexample :
    PMI_ID 512 0 0 = PMI_ID 0 0 0 ∧ 511 < 512 := by
  decide

/-- C7 amended: the encoder never fails; each field is silently masked to
its bit width, so any input encodes like its reduction modulo the field
width (out-of-range inputs therefore collide with in-range ones instead of
being rejected). -/
theorem c7_amended_silent_masking :
    ∀ d c i s, PMI_ID d c i = PMI_ID (d % 512) (c % 4096) (i % 1024) ∧
      PMI_INDOM d s = PMI_INDOM (d % 512) (s % 4194304) := by
  intro d c i s
  have m1 : ∀ x : Nat, x &&& 511 = x % 512 := fun x =>
    and_mask_eq_mod x 9 511 512 (by norm_num) (by norm_num)
  have m2 : ∀ x : Nat, x &&& 4095 = x % 4096 := fun x =>
    and_mask_eq_mod x 12 4095 4096 (by norm_num) (by norm_num)
  have m3 : ∀ x : Nat, x &&& 1023 = x % 1024 := fun x =>
    and_mask_eq_mod x 10 1023 1024 (by norm_num) (by norm_num)
  have m4 : ∀ x : Nat, x &&& 4194303 = x % 4194304 := fun x =>
    and_mask_eq_mod x 22 4194303 4194304 (by norm_num) (by norm_num)
  constructor
  · show ((d &&& 511) <<< 22 ||| (c &&& 4095) <<< 10) ||| (i &&& 1023) =
      ((d % 512 &&& 511) <<< 22 ||| (c % 4096 &&& 4095) <<< 10) ||| (i % 1024 &&& 1023)
    rw [m1, m2, m3, m1, m2, m3, mod_mod_same, mod_mod_same, mod_mod_same]
  · show (d &&& 511) <<< 22 ||| (s &&& 4194303) =
      (d % 512 &&& 511) <<< 22 ||| (s % 4194304 &&& 4194303)
    rw [m1, m4, m1, m4, mod_mod_same, mod_mod_same]

/-- C8: with at least two CPUs selected, `pcp_def_cpu_metrics` on an A_IRQ
activity issues two registrations for the same instance domain and the same
instance number 0 (since `pcp_def_percpu_intr_instances` restarts its
`inst` counter at 0 for every CPU) with two different labels
("eth0::cpu0" and "eth0::cpu1") — violating the claimed at-most-one-label
invariant of the definition phase. -/
theorem c8_conflicting_intr_instance_numbers :
    pcp_def_cpu_metrics_instances irqDefExample =
      [⟨PMI_INDOM 60 40, "eth0::cpu0", 0⟩, ⟨PMI_INDOM 60 40, "eth0::cpu1", 0⟩] ∧
    conflictFreeRegs (pcp_def_cpu_metrics_instances irqDefExample) = false := by
  decide

/-! ## Concrete writer inputs used by counterexamples and witnesses -/

def zeroStatsCpu : StatsCpu := ⟨0, 0, 0, 0, 0, 0, 0, 0, 0, 0⟩

/-- Two CPU instances (CPU "all" plus cpu0), both defined at definition
time, all bitmap bits set. -/
def cpuTicklessExample : CpuWriterInput :=
  { nr_ini := 2, nrCurr := 2, bitmapSize := 8, selBytes := fun _ => 0xff,
    bufCurr := fun _ => zeroStatsCpu, bufPrev := fun _ => zeroStatsCpu }

/-- Define-time count 1, but the current sample reports 2 instances. -/
def cpuGrowthExample : CpuWriterInput :=
  { nr_ini := 1, nrCurr := 2, bitmapSize := 8, selBytes := fun _ => 0xff,
    bufCurr := fun _ => zeroStatsCpu, bufPrev := fun _ => zeroStatsCpu }

def zeroStatsSoftnet : StatsSoftnet := ⟨0, 0, 0, 0, 0, 0⟩

/-- One softnet instance (the aggregate, index 0), selected, not offline. -/
def softnetSkipExample : SoftnetWriterInput :=
  { nr_ini := 1, nrCurr := 1, bitmapSize := 8, selBytes := fun _ => 1,
    bufCurr := fun _ => zeroStatsSoftnet }

/-- C2 counterexample: with define-time count `nr_ini = 1` and an observed
count `nr[curr] = 2`, `pcp_print_cpu_stats` does NOT clamp to the
define-time count: index 1 survives the loop bound and filter, so its raw
record is addressed and emitted even though it was not within the
define-time instance count. -/
theorem c2_counterexample :
    1 ∈ cpuFilteredIndices cpuGrowthExample (fun _ => 0) ∧
    cpuGrowthExample.nr_ini = 1 := by
  decide

/-- C2 amended: instead of clamping to the define-time count, the writers
first raise `nr_ini` to the observed `nr[curr]` and clamp iteration to that
updated count (and to the bitmap size): every index whose raw record is
read is below `max nr_ini nr[curr]` and below `b_size + 1`. -/
theorem c2_amended_loop_clamps_to_updated_count :
    (∀ (a : CpuWriterInput) (off : Nat → Nat) (i : Nat),
      i ∈ cpuFilteredIndices a off →
        i < max a.nr_ini a.nrCurr ∧ i < a.bitmapSize + 1) ∧
    (∀ (a : SoftnetWriterInput) (off : Nat → Nat) (i : Nat),
      i ∈ softnetFilteredIndices a off →
        i < max a.nr_ini a.nrCurr ∧ i < a.bitmapSize + 1) := by
  constructor
  · intro a off i h
    have h1 : i < cpuLoopBound a :=
      List.mem_range.mp (List.mem_filter.mp h).1
    simp only [cpuLoopBound, cpuUpdatedNrIni] at h1
    by_cases hc : a.nrCurr > a.nr_ini <;> simp [hc] at h1 <;> omega
  · intro a off i h
    have h1 : i < softnetLoopBound a :=
      List.mem_range.mp (List.mem_filter.mp h).1
    simp only [softnetLoopBound, softnetUpdatedNrIni] at h1
    by_cases hc : a.nrCurr > a.nr_ini <;> simp [hc] at h1 <;> omega

/-- C2 amended witness: the bound evaluated at the concrete growth input. -/
theorem c2_amended_witness :
    1 < max cpuGrowthExample.nr_ini cpuGrowthExample.nrCurr ∧
    1 < cpuGrowthExample.bitmapSize + 1 :=
  c2_amended_loop_clamps_to_updated_count.1 cpuGrowthExample (fun _ => 0) 1 (by decide)

/-- C3: for every per-CPU instance (`i >= 1`) that reaches emission (it is
in the writer's output, hence selected and not offline) and whose
`get_per_cpu_interval` delta is zero, the emitted record is exactly the
synthesized tickless record — every time bucket 0, idle 100, independent of
the raw counters. -/
theorem c3_tickless_synthesis :
    ∀ (gpci : StatsCpu → StatsCpu → Nat) (off : Nat → Nat) (a : CpuWriterInput)
      (i : Nat) (puts : List Put),
      (i, puts) ∈ pcp_print_cpu_stats_puts gpci off a → 1 ≤ i →
      gpci (a.bufCurr i) (a.bufPrev i) = 0 → puts = ticklessPuts (i - 1) := by
  intro gpci off a i puts hmem hi hz
  rcases List.mem_map.mp hmem with ⟨j, hj, he⟩
  cases he
  unfold cpu_instance_puts
  rw [if_neg (by omega), if_pos hz]

/-- C3 witness: with a delta engine returning 0 and two defined CPUs, the
writer's output for instance 1 is the synthesized record. -/
theorem c3_tickless_witness :
    (1, ticklessPuts 0) ∈
      pcp_print_cpu_stats_puts (fun _ _ => 0) (fun _ => 0) cpuTicklessExample ∧
    ticklessPuts 0 = ticklessPuts (1 - 1) :=
  ⟨by decide,
   c3_tickless_synthesis (fun _ _ => 0) (fun _ => 0) cpuTicklessExample 1
     (ticklessPuts 0) (by decide) (by decide) rfl⟩

/-- C5 counterexample: in `pcp_print_softnet_stats`, the aggregate instance
0 is selected and not offline — the claimed condition for emission — yet
the writer emits no value for it (the `if (!i) continue;` of lines 372-375
skips CPU "all" entirely). -/
theorem c5_counterexample :
    bitTest softnetSkipExample.selBytes 0 = true ∧
    bitTest (fun _ => 0) 0 = false ∧
    pcp_print_softnet_stats_puts (fun _ => 0) softnetSkipExample = [(0, [])] := by
  decide

/-- C5 amended: within the iterated range, an instance reaches the emission
stage exactly when its selection bit is set and its offline bit is clear;
the CPU writer then always emits a non-empty record (real or synthesized),
while the softnet writer additionally always skips the aggregate instance 0
(it emits a non-empty record exactly for surviving instances `i != 0`). -/
theorem c5_amended_filter_emission :
    (∀ (gpci : StatsCpu → StatsCpu → Nat) (off : Nat → Nat) (a : CpuWriterInput) (i : Nat),
      i ∈ (pcp_print_cpu_stats_puts gpci off a).map Prod.fst ↔
        i < cpuLoopBound a ∧ (bitTest a.selBytes i = true ∧ cpuOffline a off i = false)) ∧
    (∀ (gpci : StatsCpu → StatsCpu → Nat) (off : Nat → Nat) (a : CpuWriterInput)
      (i : Nat) (puts : List Put),
      (i, puts) ∈ pcp_print_cpu_stats_puts gpci off a → puts ≠ []) ∧
    (∀ (off : Nat → Nat) (a : SoftnetWriterInput) (i : Nat),
      i ∈ (pcp_print_softnet_stats_puts off a).map Prod.fst ↔
        i < softnetLoopBound a ∧ (bitTest a.selBytes i = true ∧ bitTest off i = false)) ∧
    (∀ (off : Nat → Nat) (a : SoftnetWriterInput) (i : Nat) (puts : List Put),
      (i, puts) ∈ pcp_print_softnet_stats_puts off a → (puts = [] ↔ i = 0)) := by
  refine ⟨?_, ?_, ?_, ?_⟩
  · intro gpci off a i
    have hfst : (pcp_print_cpu_stats_puts gpci off a).map Prod.fst =
        cpuFilteredIndices a off := map_pair_fst _ _
    rw [hfst]
    simp [cpuFilteredIndices, List.mem_filter, List.mem_range, Bool.not_eq_true']
  · intro gpci off a i puts hmem
    rcases List.mem_map.mp hmem with ⟨j, hj, he⟩
    cases he
    simp only [cpu_instance_puts]
    split
    · simp [allCpuRealPuts]
    · split
      · simp [ticklessPuts]
      · simp [percpuRealPuts]
  · intro off a i
    have hfst : (pcp_print_softnet_stats_puts off a).map Prod.fst =
        softnetFilteredIndices a off := map_pair_fst _ _
    rw [hfst]
    simp [softnetFilteredIndices, List.mem_filter, List.mem_range, Bool.not_eq_true']
  · intro off a i puts hmem
    rcases List.mem_map.mp hmem with ⟨j, hj, he⟩
    cases he
    simp only [softnet_instance_puts]
    split
    · simp [*]
    · simp [softnetPercpuPuts, *]

/-- C5 amended witness: the CPU writer's emission for the aggregate
instance of the concrete two-CPU input is non-empty. -/
theorem c5_amended_witness :
    allCpuRealPuts zeroStatsCpu ≠ [] :=
  c5_amended_filter_emission.2.1 (fun _ _ => 0) (fun _ => 0) cpuTicklessExample 0
    (allCpuRealPuts zeroStatsCpu) (by decide)

/-- C10: CPU "all" (index 0) is never treated as tickless: its emission is
always the real-counter record (never the synthesized one, whatever the
delta engine returns), and the aggregate interval of lines 211-226 is
forced to 1 exactly when it computes to zero, hence always positive. -/
theorem c10_cpu_all_never_tickless :
    ∀ (gpci : StatsCpu → StatsCpu → Nat) (ggcsDeltot nrIniUpd : Nat) (scc scp : StatsCpu),
      cpu_instance_puts gpci scc scp 0 = allCpuRealPuts scc ∧
      0 < cpu_all_interval gpci ggcsDeltot nrIniUpd scc scp ∧
      ((if nrIniUpd = 1 then gpci scc scp else cpuWriterDeltotInit ggcsDeltot nrIniUpd) = 0 →
        cpu_all_interval gpci ggcsDeltot nrIniUpd scc scp = 1) ∧
      (∀ j, cpu_instance_puts gpci scc scp 0 ≠ ticklessPuts j) := by
  intro gpci ggcsDeltot nrIniUpd scc scp
  refine ⟨rfl, ?_, ?_, ?_⟩
  · exact pos_of_ite_zero_one _
  · intro h
    simp [cpu_all_interval, h]
  · intro j hcontra
    have hlen := congrArg List.length hcontra
    simp [cpu_instance_puts, allCpuRealPuts, ticklessPuts] at hlen

/-- C10 witness: with a delta engine computing 0 on a UP machine, the
aggregate interval is forced to exactly 1. -/
theorem c10_cpu_all_witness :
    cpu_all_interval (fun _ _ => 0) 5 1 zeroStatsCpu zeroStatsCpu = 1 :=
  (c10_cpu_all_never_tickless (fun _ _ => 0) 5 1 zeroStatsCpu zeroStatsCpu).2.2.1 (by decide)

/-! ## C4 helper lemmas about `pcp_reallocate_buffers` -/

theorem pcp_realloc_alloc_eq (a : BufAct) (c : Nat) :
    (pcp_reallocate_buffers a c).nr_allocated = max a.nr_allocated c := by
  simp only [pcp_reallocate_buffers, reallocate_buffers]
  split_ifs <;> simp_all <;> omega

theorem pcp_realloc_nrCurr_eq (a : BufAct) (c : Nat) :
    (pcp_reallocate_buffers a c).nrCurr = c := by
  simp only [pcp_reallocate_buffers, reallocate_buffers]
  split_ifs <;> simp_all

theorem pcp_realloc_buf_preserved (a : BufAct) (c : Nat) (i : Nat)
    (h : i < a.buf.length) :
    (pcp_reallocate_buffers a c).buf[i]? = a.buf[i]? ∧
      a.buf.length ≤ (pcp_reallocate_buffers a c).buf.length := by
  simp only [pcp_reallocate_buffers, reallocate_buffers]
  split_ifs <;>
    simp_all [List.getElem?_append_left h, Nat.le_add_right]

theorem pcp_realloc_fold_buf_preserved (cs : List Nat) (a : BufAct) (i : Nat)
    (h : i < a.buf.length) :
    (cs.foldl pcp_reallocate_buffers a).buf[i]? = a.buf[i]? := by
  induction cs generalizing a with
  | nil => rfl
  | cons c t ih =>
    have hstep := pcp_realloc_buf_preserved a c i h
    calc ((c :: t).foldl pcp_reallocate_buffers a).buf[i]?
        = (t.foldl pcp_reallocate_buffers (pcp_reallocate_buffers a c)).buf[i]? := rfl
      _ = (pcp_reallocate_buffers a c).buf[i]? := ih _ (Nat.lt_of_lt_of_le h hstep.2)
      _ = a.buf[i]? := hstep.1

theorem pcp_realloc_fold_alloc (cs : List Nat) (a : BufAct) :
    (cs.foldl pcp_reallocate_buffers a).nr_allocated = cs.foldl max a.nr_allocated := by
  induction cs generalizing a with
  | nil => rfl
  | cons c t ih =>
    calc ((c :: t).foldl pcp_reallocate_buffers a).nr_allocated
        = (t.foldl pcp_reallocate_buffers (pcp_reallocate_buffers a c)).nr_allocated := rfl
      _ = t.foldl max (pcp_reallocate_buffers a c).nr_allocated := ih _
      _ = t.foldl max (max a.nr_allocated c) := by rw [pcp_realloc_alloc_eq]

/-- C4: buffer growth is monotone and lossless: a single call grows
`nr_allocated` to `max` of old allocation and observed count (so it grows
exactly when the count exceeds the allocation and never shrinks); after any
sequence of calls `nr_allocated` is the maximum of the initial allocation
and all observed counts; after every call `nr[curr] <= nr_allocated`; and a
record stored at an index valid before the calls reads back unchanged. -/
theorem c4_buffer_growth_monotone :
    (∀ (a : BufAct) (c : Nat),
      (pcp_reallocate_buffers a c).nr_allocated = max a.nr_allocated c) ∧
    (∀ (a : BufAct) (c : Nat),
      a.nr_allocated ≤ (pcp_reallocate_buffers a c).nr_allocated) ∧
    (∀ (a : BufAct) (c : Nat),
      (pcp_reallocate_buffers a c).nrCurr ≤ (pcp_reallocate_buffers a c).nr_allocated) ∧
    (∀ (a : BufAct) (cs : List Nat),
      (cs.foldl pcp_reallocate_buffers a).nr_allocated = cs.foldl max a.nr_allocated) ∧
    (∀ (a : BufAct) (cs : List Nat) (i : Nat), i < a.buf.length →
      (cs.foldl pcp_reallocate_buffers a).buf[i]? = a.buf[i]?) := by
  refine ⟨pcp_realloc_alloc_eq, ?_, ?_, fun a cs => pcp_realloc_fold_alloc cs a,
    fun a cs i h => pcp_realloc_fold_buf_preserved cs a i h⟩
  · intro a c
    rw [pcp_realloc_alloc_eq]
    omega
  · intro a c
    rw [pcp_realloc_alloc_eq, pcp_realloc_nrCurr_eq]
    omega

/-- C4 witness: starting from one allocated record `[7]`, the observed
counts 3 then 2 leave the record at index 0 unchanged. -/
theorem c4_buffer_growth_witness :
    (([3, 2] : List Nat).foldl pcp_reallocate_buffers
        ⟨-1, 0, 0, 1, [7]⟩).buf[0]? = (⟨-1, 0, 0, 1, [7]⟩ : BufAct).buf[0]? :=
  c4_buffer_growth_monotone.2.2.2.2 ⟨-1, 0, 0, 1, [7]⟩ [3, 2] 0 (by decide)

/-- C9: the import dispatcher silently ignores unknown identifiers — for a
pmid matching no case, `pcp_read_stats` invokes no reader and returns the
state untouched — and routes every known identifier (with a non-empty
valueset) to exactly the unique owning group's reader: the case labels are
pairwise distinct, so ownership is unambiguous. -/
theorem c9_dispatcher_routing :
    (∀ (σ : Type) (readers : PcpGroup → σ → σ) (v : ValueSet) (s : σ),
      v.pmid ∉ knownPmids → pcp_read_stats readers v s = s) ∧
    (∀ (p : Nat) (g h : PcpGroup),
      (p, g) ∈ dispatchTable → (p, h) ∈ dispatchTable → g = h) ∧
    (∀ (σ : Type) (readers : PcpGroup → σ → σ) (v : ValueSet) (s : σ) (g : PcpGroup),
      0 < v.numval → (v.pmid, g) ∈ dispatchTable →
      pcp_read_stats readers v s = readers g s) := by
  have hnd : knownPmids.Nodup := by decide
  refine ⟨?_, ?_, ?_⟩
  · intro σ readers v s hun
    have hnone : List.lookup v.pmid dispatchTable = none := by
      rw [List.lookup_eq_none_iff]
      intro p hp
      have hk : p.1 ∈ knownPmids := List.mem_map_of_mem Prod.fst hp
      exact bne_iff_ne.mpr fun he => hun (he ▸ hk)
    by_cases hn : v.numval ≤ 0 <;>
      simp [pcp_read_stats, pcp_read_stats_route, hn, hnone]
  · intro p g h hg hh
    have lg := lookup_eq_some_of_mem_keyNodup dispatchTable p g hg hnd
    have lh := lookup_eq_some_of_mem_keyNodup dispatchTable p h hh hnd
    exact Option.some.inj (lg.symm.trans lh)
  · intro σ readers v s g hpos hmem
    have lg := lookup_eq_some_of_mem_keyNodup dispatchTable v.pmid g hmem hnd
    have hn : ¬v.numval ≤ 0 := by omega
    simp [pcp_read_stats, pcp_read_stats_route, hn, lg]

/-- C9 witness: the unknown pmid 42 leaves the (abstract) import state
unchanged; the known `PMID_CPU_ALLCPU_USER` with one value routes to the
CPU group's reader. -/
theorem c9_dispatcher_witness :
    ((42 : Nat) ∉ knownPmids ∧
      pcp_read_stats (fun (_ : PcpGroup) (n : Nat) => n + 1) ⟨42, 1⟩ 0 = 0) ∧
    (0 < (1 : Int) ∧
      pcp_read_stats (fun (_ : PcpGroup) (n : Nat) => n + 1) ⟨PMI_ID 60 0 20, 1⟩ 0 =
        (fun (_ : PcpGroup) (n : Nat) => n + 1) PcpGroup.gCpu 0) :=
  ⟨⟨by decide, c9_dispatcher_routing.1 Nat (fun _ n => n + 1) ⟨42, 1⟩ 0 (by decide)⟩,
   ⟨by decide, c9_dispatcher_routing.2.2 Nat (fun _ n => n + 1) ⟨PMI_ID 60 0 20, 1⟩ 0
      PcpGroup.gCpu (by decide) (by decide)⟩⟩
